import Mathlib

/-!
Verification of the Pshopi Shopify-webhook → SMS dispatch pipeline.

The repository contains three handler variants:
* `src/api/index.js` (first function in the file) — modelled in namespace `Api`;
* `src/unnamed/part_000` — modelled in namespace `P000`;
* `src/api/index.js` (second function in the file, after the separator) — its
  `createMessage` is modelled in namespace `V2`;
* `src/index.js` (session-counter variant) — modelled in namespace `Counter`.

JavaScript values flowing through the pipeline (parsed JSON payloads,
upstream service responses) are modelled by `JsonVal`.  Payload accesses
`obj?.[key]` use fixed literal keys (customer, phone, order, ...) that are
never `Object.prototype` property names, so they are modelled as
own-property lookup returning `Option JsonVal` (`none` = `undefined`).  The
composers' topic lookup `templates[eventType]`, by contrast, takes an
arbitrary header string and follows the prototype chain: a topic naming an
`Object.prototype` property resolves to the truthy inherited member, which
`TemplateVal.proto` represents.  Code that can throw is modelled in
`Except Unit`; `Except.error ()` is a thrown exception.  External effects
(the HMAC-SHA256 keyed digest, `JSON.parse`, and the two `axios.post`
responses) are parameters of the handler functions.
-/

namespace Pshopi

/-- A JavaScript/JSON value as it appears in the pipeline. -/
inductive JsonVal where
  | str : String → JsonVal
  | num : Int → JsonVal
  | bool : Bool → JsonVal
  | nullV : JsonVal
  | arr : List JsonVal → JsonVal
  | obj : List (String × JsonVal) → JsonVal

/-- Own-property lookup: `v[k]` on a non-object (including strings and
numbers) is `undefined`, modelled as `none`. -/
def getField (v : JsonVal) (k : String) : Option JsonVal :=
  match v with
  | .obj fields => (fields.find? (fun p => p.1 == k)).map Prod.snd
  | _ => none

/-- Optional-chaining access `o?.[k]`: `undefined` and `null` receivers give
`undefined` instead of throwing. -/
def jsGet (v : Option JsonVal) (k : String) : Option JsonVal :=
  match v with
  | none => none
  | some .nullV => none
  | some w => getField w k

/-- JavaScript truthiness of a value. -/
def jsTruthy : JsonVal → Bool
  | .str s => !s.isEmpty
  | .num n => !(n == 0)
  | .bool b => b
  | .nullV => false
  | .arr _ => true
  | .obj _ => true

mutual

/-- JavaScript `String(v)` coercion (as used by regex `.test` and template
literals): arrays join their elements with commas, `null`/`undefined`
elements becoming empty strings; plain objects print `[object Object]`. -/
def jsValToString : JsonVal → String
  | .str s => s
  | .num n => toString n
  | .bool b => cond b "true" "false"
  | .nullV => "null"
  | .obj _ => "[object Object]"
  | .arr l => String.intercalate "," (jsArrElems l)

/-- Element strings for array stringification. -/
def jsArrElems : List JsonVal → List String
  | [] => []
  | .nullV :: vs => "" :: jsArrElems vs
  | v :: vs => jsValToString v :: jsArrElems vs

end

/-- Template-literal interpolation `${x}` of a possibly-missing value:
`undefined` prints as the string `undefined`. -/
def interp : Option JsonVal → String
  | none => "undefined"
  | some v => jsValToString v

/-- Interpolation of an environment variable (`process.env.X` is
`undefined` when unset, printing as `undefined`). -/
def interpEnv : Option String → String
  | none => "undefined"
  | some s => s

/-- Whitespace stripped by `Number(string)` conversion. -/
def isJsSpace (c : Char) : Bool :=
  c = ' ' || c = '\t' || c = '\n' || c = '\r'

/-- Strip leading and trailing whitespace from a character list. -/
def trimChars (cs : List Char) : List Char :=
  ((cs.dropWhile isJsSpace).reverse.dropWhile isJsSpace).reverse

/-- Accumulate a decimal value, failing at the first non-digit. -/
def digitsToNatAux : List Char → Nat → Option Nat
  | [], acc => some acc
  | c :: cs, acc =>
    if c.isDigit then digitsToNatAux cs (acc * 10 + (c.toNat - 48)) else none

/-- Decimal value of a non-empty all-digit character list. -/
def digitsToNat : List Char → Option Nat
  | [] => none
  | c :: cs => digitsToNatAux (c :: cs) 0

/-- JavaScript `Number(string)` conversion, restricted to the integer
literals (with optional sign, surrounding whitespace, and the empty string
converting to 0) that occur in this development; every other string is NaN,
modelled as `none`. -/
def parseJsNumber (s : String) : Option Int :=
  match trimChars s.data with
  | [] => some 0
  | '-' :: rest => (digitsToNat rest).map (fun n => -(n : Int))
  | '+' :: rest => (digitsToNat rest).map (fun n => (n : Int))
  | cs => (digitsToNat cs).map (fun n => (n : Int))

/-- JavaScript `Number(v)` coercion; `none` is NaN. -/
def jsToNumber (v : JsonVal) : Option Int :=
  match v with
  | .num n => some n
  | .str s => parseJsNumber s
  | .bool b => some (cond b 1 0)
  | .nullV => some 0
  | .arr l => parseJsNumber (jsValToString (.arr l))
  | .obj _ => none

/-- The relational test `v <= 0` with JavaScript coercion; comparisons
against NaN are false. -/
def jsLeZero (v : JsonVal) : Bool :=
  match jsToNumber v with
  | some n => decide (n ≤ 0)
  | none => false

/-- The arithmetic `v - 1` appearing in the success responses, as it
serializes to JSON: `none` is NaN, which `JSON.stringify` renders as null. -/
def jsSub1 (v : JsonVal) : Option Int :=
  (jsToNumber v).map (fun n => n - 1)

/-- The phone pattern of `isValidPhone` in src/api/index.js
(regex `^\+?[0-9]{8,15}$`): optional leading plus sign, then 8 to 15
digits. -/
def isValidPhone (s : String) : Bool :=
  match s.data with
  | '+' :: rest =>
      decide (8 ≤ rest.length) && decide (rest.length ≤ 15) && rest.all Char.isDigit
  | cs =>
      decide (8 ≤ cs.length) && decide (cs.length ≤ 15) && cs.all Char.isDigit

/-- The own property names of `Object.prototype` in Node: indexing a plain
object literal with any of these hits the inherited member instead of
`undefined` — a truthy non-string value (a built-in function, or the
prototype object itself for `__proto__`). -/
def objectProtoKeys : List String :=
  ["constructor", "hasOwnProperty", "isPrototypeOf", "propertyIsEnumerable",
   "toLocaleString", "toString", "valueOf", "__proto__",
   "__defineGetter__", "__defineSetter__", "__lookupGetter__",
   "__lookupSetter__"]

/-- What the composers' `templates[eventType]` lookup can resolve to: one
of the object literal's own template strings, or — when the topic names an
`Object.prototype` property — the truthy member inherited through the
prototype chain. -/
inductive TemplateVal where
  | str : String → TemplateVal
  | proto : String → TemplateVal

/-- The standard base64 alphabet. -/
def b64Chars : List Char :=
  "ABCDEFGHIJKLMNOPQRSTUVWXYZabcdefghijklmnopqrstuvwxyz0123456789+/".toList

/-- Character at an alphabet index. -/
def b64Char (n : Nat) : Char := b64Chars.getD n 'A'

/-- Position of a character in a list of characters. -/
def charIndexAux : List Char → Nat → Char → Option Nat
  | [], _, _ => none
  | c :: cs, i, d => if c = d then some i else charIndexAux cs (i + 1) d

/-- Index of a base64 digit; `Buffer.from(_, "base64")` also accepts the
url-safe digits and skips every other character (including padding). -/
def b64Index (c : Char) : Option Nat :=
  if c = '-' then some 62
  else if c = '_' then some 63
  else charIndexAux b64Chars 0 c

/-- Base64 encoding of a byte list, as `digest("base64")` produces it. -/
def base64EncodeList : List Nat → List Char
  | [] => []
  | [a] =>
      let x := (a % 256) * 65536
      [b64Char (x / 262144 % 64), b64Char (x / 4096 % 64), '=', '=']
  | [a, b] =>
      let x := (a % 256) * 65536 + (b % 256) * 256
      [b64Char (x / 262144 % 64), b64Char (x / 4096 % 64), b64Char (x / 64 % 64), '=']
  | a :: b :: c :: rest =>
      let x := (a % 256) * 65536 + (b % 256) * 256 + (c % 256)
      b64Char (x / 262144 % 64) :: b64Char (x / 4096 % 64) :: b64Char (x / 64 % 64) ::
        b64Char (x % 64) :: base64EncodeList rest

/-- Base64 encoding to a string. -/
def base64Encode (l : List Nat) : String := ⟨base64EncodeList l⟩

/-- Decode a stream of sextets into bytes, dropping a trailing lone sextet
exactly as Node does. -/
def decodeSextets : List Nat → List Nat
  | a :: b :: c :: d :: rest =>
      let x := a * 262144 + b * 4096 + c * 64 + d
      x / 65536 % 256 :: x / 256 % 256 :: x % 256 :: decodeSextets rest
  | [a, b, c] =>
      let x := a * 262144 + b * 4096 + c * 64
      [x / 65536 % 256, x / 256 % 256]
  | [a, b] =>
      let x := a * 262144 + b * 4096
      [x / 65536 % 256]
  | _ => []

/-- `Buffer.from(s, "base64")`: keep the base64 digits, decode them. -/
def base64Decode (s : String) : List Nat :=
  decodeSextets (s.data.filterMap b64Index)

/-- `crypto.timingSafeEqual` compares two buffers, throwing
`ERR_CRYPTO_TIMING_SAFE_EQUAL_LENGTH` when their lengths differ. -/
def timingSafeEqual (a b : List Nat) : Except Unit Bool :=
  if a.length = b.length then .ok (decide (a = b)) else .error ()

/-- An inbound webhook request: the three Shopify headers are `none` when
absent, and the raw body is a byte list. -/
structure Request where
  method : String
  topicHeader : Option String
  domainHeader : Option String
  hmacHeader : Option String
  rawBody : List Nat

/-- Environment variables used by the handlers. -/
structure Env where
  secret : Option String
  storePhone : Option String
  storeContact : Option String

/-- JavaScript falsiness of a header value: absent or empty. -/
def hFalsy : Option String → Bool
  | none => true
  | some s => s.isEmpty

/-- The header-presence check shared by all handler variants: any of the
three required Shopify headers missing (or empty) fails it. -/
def missingHeaders (req : Request) : Bool :=
  hFalsy req.topicHeader || hFalsy req.domainHeader || hFalsy req.hmacHeader

/-- A keyed digest function standing in for `crypto.createHmac("sha256",
secret).update(body).digest()`; SHA-256 digests are 32 bytes. -/
abbrev Digest := String → List Nat → List Nat

namespace Api

/-- verifyHmac of src/api/index.js (first variant): computes the base64
digest, decodes both sides, and compares with `timingSafeEqual`, with the
whole body inside a try/catch that returns false — including when the
secret is unset (falsy), which the function turns into a caught throw. -/
def verifyHmac (digest : Digest) (secret : Option String) (hmacHeader : String)
    (body : List Nat) : Bool :=
  match secret with
  | none => false
  | some s =>
    if s.isEmpty then false
    else
      match timingSafeEqual (base64Decode (base64Encode (digest s body)))
          (base64Decode hmacHeader) with
      | .ok b => b
      | .error _ => false

/-- The five dotted candidate paths of extractPhoneNumber in
src/api/index.js. -/
def phonePaths : List (List String) :=
  [["customer", "phone"],
   ["order", "customer", "phone"],
   ["checkout", "billing_address", "phone"],
   ["billing_address", "phone"],
   ["shipping_address", "phone"]]

/-- `path.split(".").reduce((obj, key) => obj?.[key], data)`. -/
def resolvePath (data : JsonVal) (path : List String) : Option JsonVal :=
  path.foldl jsGet (some data)

/-- The loop body of extractPhoneNumber: return the first path value that is
truthy and matches the phone pattern (regex `.test` coerces to string). -/
def tryPaths (data : JsonVal) : List (List String) → Option JsonVal
  | [] => none
  | p :: ps =>
    match resolvePath data p with
    | some v =>
      if jsTruthy v && isValidPhone (jsValToString v) then some v else tryPaths data ps
    | none => tryPaths data ps

/-- extractPhoneNumber of src/api/index.js (first variant). -/
def extractPhoneNumber (data : JsonVal) : Option JsonVal :=
  tryPaths data phonePaths

/-- createNotificationMessage of src/api/index.js (first variant).  The
template object is built eagerly, so a `null` payload throws on the very
first `data.order` access (`Except.error`); otherwise `templates[eventType]`
selects an own template, a topic naming an `Object.prototype` property
resolves to the truthy inherited member through the prototype chain, and
every other topic gives `undefined`, turned into `none` by the
`|| null`. -/
def createNotificationMessage (storePhone : Option String) (eventType : String)
    (data : JsonVal) : Except Unit (Option TemplateVal) :=
  match data with
  | .nullV => .error ()
  | _ =>
    let onum := interp (jsGet (getField data "order") "order_number")
    let fstat := interp (jsGet (getField data "order") "financial_status")
    .ok (if eventType = "orders/create" then
        some (.str ("📦 تم تأكيد طلبك #" ++ onum ++ "! شكراً لثقتك"))
      else if eventType = "orders/cancelled" then
        some (.str ("⚠️ إلغاء الطلب #" ++ onum ++ "، للاستفسار: " ++
          (storePhone.getD "")))
      else if eventType = "orders/updated" then
        some (.str ("🔄 تحديث حالة الطلب #" ++ onum ++ ": " ++ fstat))
      else if eventType = "orders/paid" then
        some (.str ("💳 تم دفع طلبك #" ++ onum))
      else if eventType = "orders/fulfilled" then
        some (.str ("🚚 تم شحن طلبك #" ++ onum))
      else if eventType ∈ objectProtoKeys then some (.proto eventType)
      else none)

/-- checkCredit of src/api/index.js (first variant): a transport error or a
non-number `response.data` is (re)thrown as a generic failure; a numeric
response — including the sentinel -5 — is returned. -/
def checkCredit (creditData : Except Unit JsonVal) : Except Unit Int :=
  match creditData with
  | .error _ => .error ()
  | .ok (.num n) => .ok n
  | .ok _ => .error ()

end Api

namespace P000

/-- verifyHmac of src/unnamed/part_000: same comparison but with no
try/catch, so a length mismatch in `timingSafeEqual` (and a missing secret,
which makes `createHmac` throw) propagates as an exception. -/
def verifyHmac (digest : Digest) (secret : Option String) (hmacHeader : String)
    (body : List Nat) : Except Unit Bool :=
  match secret with
  | none => .error ()
  | some s =>
    timingSafeEqual (base64Decode (base64Encode (digest s body)))
      (base64Decode hmacHeader)

/-- First truthy value of a `||` chain; a chain ending in a falsy value is
falsy, which the caller treats the same as a missing phone. -/
def firstTruthy : List (Option JsonVal) → Option JsonVal
  | [] => none
  | none :: vs => firstTruthy vs
  | some w :: vs => if jsTruthy w then some w else firstTruthy vs

/-- extractPhoneNumber of src/unnamed/part_000: only three candidate paths
and no phone-pattern validation. -/
def extractPhoneNumber (data : JsonVal) : Option JsonVal :=
  firstTruthy
    [Api.resolvePath data ["customer", "phone"],
     Api.resolvePath data ["order", "customer", "phone"],
     Api.resolvePath data ["checkout", "billing_address", "phone"]]

/-- createNotificationMessage of src/unnamed/part_000: three templates only;
the order number falls back to the placeholder `N/A` when missing or falsy,
while `financial_status` and `STORE_CONTACT` interpolate raw (printing
`undefined` when absent).  A `null` payload throws on `data.order`; a topic
naming an `Object.prototype` property resolves `messages[eventType]` to the
truthy inherited member. -/
def createNotificationMessage (storeContact : Option String) (eventType : String)
    (data : JsonVal) : Except Unit (Option TemplateVal) :=
  match data with
  | .nullV => .error ()
  | _ =>
    let onum :=
      match jsGet (getField data "order") "order_number" with
      | some v => if jsTruthy v then jsValToString v else "N/A"
      | none => "N/A"
    let fstat := interp (jsGet (getField data "order") "financial_status")
    .ok (if eventType = "orders/create" then
        some (.str ("📦 تم تأكيد طلبك #" ++ onum ++ "! شكراً لاختيارك متجرنا"))
      else if eventType = "orders/cancelled" then
        some (.str ("⚠️ نأسف لإلغاء طلبك #" ++ onum ++ ". للاستفسار: " ++
          interpEnv storeContact))
      else if eventType = "orders/updated" then
        some (.str ("🔄 تم تحديث حالة طلبك #" ++ onum ++ " إلى: " ++ fstat))
      else if eventType ∈ objectProtoKeys then some (.proto eventType)
      else none)

/-- checkCredit of src/unnamed/part_000: the -5 sentinel is turned into a
thrown generic Error (as is a transport failure), and every other response
value — numeric or not — is returned unchanged. -/
def checkCredit (creditData : Except Unit JsonVal) : Except Unit JsonVal :=
  match creditData with
  | .error _ => .error ()
  | .ok v =>
    match v with
    | .num n => if n = -5 then .error () else .ok (.num n)
    | _ => .ok v

end P000

namespace V2

/-- createMessage of the second handler variant in src/api/index.js: five
templates, order number falling back to the Arabic placeholder; a `null`
payload throws on `data.order`; a topic naming an `Object.prototype`
property resolves `templates[topic]` to the truthy inherited member. -/
def createMessage (storePhone : Option String) (topic : String)
    (data : JsonVal) : Except Unit (Option TemplateVal) :=
  match data with
  | .nullV => .error ()
  | _ =>
    let onum :=
      match jsGet (getField data "order") "order_number" with
      | some v => if jsTruthy v then jsValToString v else "بدون رقم"
      | none => "بدون رقم"
    .ok (if topic = "orders/create" then
        some (.str ("📦 تم تأكيد طلبك #" ++ onum ++ "! شكراً لك."))
      else if topic = "orders/cancelled" then
        some (.str ("⚠️ تم إلغاء طلبك #" ++ onum ++ ". للتواصل: " ++
          (storePhone.getD "")))
      else if topic = "orders/updated" then
        some (.str ("🔄 تم تحديث حالة الطلب #" ++ onum ++ "."))
      else if topic = "orders/fulfilled" then
        some (.str ("🚚 تم شحن طلبك #" ++ onum ++ "."))
      else if topic = "orders/paid" then
        some (.str ("💳 تم دفع طلبك #" ++ onum ++ "."))
      else if topic ∈ objectProtoKeys then some (.proto topic)
      else none)

end V2

namespace Api

/-- Observable outcome of the src/api/index.js handler: the HTTP status,
the SMS-gateway calls attempted (phone value, message value), whether the
body was read, whether `JSON.parse` ran, whether the credit service was
called, and the `remaining_quota` / `sms_id` fields of a 200 response. -/
structure Result where
  status : Nat
  dispatchAttempts : List (JsonVal × TemplateVal)
  bodyRead : Bool
  parseAttempted : Bool
  creditCalled : Bool
  remaining_quota : Option Int
  sms_id : Option (Option JsonVal)

/-- The src/api/index.js request orchestrator (first variant).  `parsed` is
what `JSON.parse` yields on the raw body, `creditData` and `smsData` are the
`response.data` of the two upstream calls (`Except.error` = transport
failure); any exception reaches the final catch-all, which answers 500. -/
def handler (env : Env) (digest : Digest) (req : Request)
    (parsed creditData smsData : Except Unit JsonVal) : Result :=
  if req.method ≠ "POST" then ⟨405, [], false, false, false, none, none⟩
  else if missingHeaders req then ⟨401, [], false, false, false, none, none⟩
  else if verifyHmac digest env.secret (req.hmacHeader.getD "") req.rawBody then
    match parsed with
    | .error _ => ⟨500, [], true, true, false, none, none⟩
    | .ok data =>
      match extractPhoneNumber data with
      | none => ⟨400, [], true, true, false, none, none⟩
      | some phone =>
        match checkCredit creditData with
        | .error _ => ⟨500, [], true, true, true, none, none⟩
        | .ok remaining =>
          if remaining ≤ 0 then ⟨402, [], true, true, true, none, none⟩
          else
            match createNotificationMessage env.storePhone
                (req.topicHeader.getD "") data with
            | .error _ => ⟨500, [], true, true, true, none, none⟩
            | .ok none => ⟨400, [], true, true, true, none, none⟩
            | .ok (some msg) =>
              match smsData with
              | .error _ => ⟨500, [(phone, msg)], true, true, true, none, none⟩
              | .ok d =>
                match getField d "Status" with
                | some (.str st) =>
                  if st = "Success" then
                    ⟨200, [(phone, msg)], true, true, true,
                      some (remaining - 1), some (getField d "SMSID")⟩
                  else ⟨500, [(phone, msg)], true, true, true, none, none⟩
                | _ => ⟨500, [(phone, msg)], true, true, true, none, none⟩
  else ⟨401, [], true, false, false, none, none⟩

end Api

namespace P000

/-- Observable outcome of the src/unnamed/part_000 handler; its 200 response
carries `remaining_quota` but no sms id.  The inner `Option Int` of
`remaining_quota` is `none` when the JavaScript value is NaN (serialized as
null). -/
structure Result where
  status : Nat
  dispatchAttempts : List (JsonVal × TemplateVal)
  bodyRead : Bool
  parseAttempted : Bool
  creditCalled : Bool
  remaining_quota : Option (Option Int)

/-- The src/unnamed/part_000 request orchestrator.  Its verifyHmac can
throw (→ catch-all 500), its checkCredit passes non-numeric responses
through, and the quota test `remainingQuota <= 0` uses JavaScript
coercion. -/
def handler (env : Env) (digest : Digest) (req : Request)
    (parsed creditData smsData : Except Unit JsonVal) : Result :=
  if req.method ≠ "POST" then ⟨405, [], false, false, false, none⟩
  else if missingHeaders req then ⟨401, [], false, false, false, none⟩
  else
    match verifyHmac digest env.secret (req.hmacHeader.getD "") req.rawBody with
    | .error _ => ⟨500, [], true, false, false, none⟩
    | .ok false => ⟨401, [], true, false, false, none⟩
    | .ok true =>
      match parsed with
      | .error _ => ⟨500, [], true, true, false, none⟩
      | .ok data =>
        match extractPhoneNumber data with
        | none => ⟨400, [], true, true, false, none⟩
        | some phone =>
          match checkCredit creditData with
          | .error _ => ⟨500, [], true, true, true, none⟩
          | .ok remaining =>
            if jsLeZero remaining then ⟨402, [], true, true, true, none⟩
            else
              match createNotificationMessage env.storeContact
                  (req.topicHeader.getD "") data with
              | .error _ => ⟨500, [], true, true, true, none⟩
              | .ok none => ⟨400, [], true, true, true, none⟩
              | .ok (some msg) =>
                match smsData with
                | .error _ => ⟨500, [(phone, msg)], true, true, true, none⟩
                | .ok d =>
                  match getField d "Status" with
                  | some (.str st) =>
                    if st = "Success" then
                      ⟨200, [(phone, msg)], true, true, true,
                        some (jsSub1 remaining)⟩
                    else ⟨500, [(phone, msg)], true, true, true, none⟩
                  | _ => ⟨500, [(phone, msg)], true, true, true, none⟩

end P000

namespace Counter

/-- The module-level send ceiling of src/index.js. -/
def MAX_QUOTA : Nat := 10

/-- checkCredit of src/index.js: the -5 sentinel and transport failures are
thrown; any other response value is returned unchanged (no type check). -/
def checkCredit (creditData : Except Unit JsonVal) : Except Unit JsonVal :=
  match creditData with
  | .error _ => .error ()
  | .ok v =>
    match v with
    | .num n => if n = -5 then .error () else .ok (.num n)
    | _ => .ok v

/-- Observable outcome of one src/index.js request: status, SMS-gateway
calls attempted, the post-request value of the module-level `sentCount`,
and the `quota: {sent, remaining}` counters of its 200 response body
(which carries neither a `remaining_quota` field nor an sms id). -/
structure Result where
  status : Nat
  dispatchAttempts : List (JsonVal × TemplateVal)
  sentAfter : Nat
  quota : Option (Nat × Int)

/-- The src/index.js (session-counter) request orchestrator, as a step
function on the module-level `sentCount` state `s`.  Its own code is the
counter logic, the quota guard in sendSMS (which throws before the gateway
call when `sentCount >= MAX_QUOTA`), and the `sentCount++` that runs only
after a successful send.  Modelled from the spec: src/index.js calls
`getRawBody`, `verifyHmac`, `extractPhoneNumber` and
`createNotificationMessage` without defining them in that file; they are
taken as specified in §4.1–4.3 of the design (matching the src/api/index.js
definitions `Api.verifyHmac`, `Api.extractPhoneNumber`,
`Api.createNotificationMessage`). -/
def handler (env : Env) (digest : Digest) (req : Request)
    (parsed creditData smsData : Except Unit JsonVal) (s : Nat) : Result :=
  if req.method ≠ "POST" then ⟨405, [], s, none⟩
  else if missingHeaders req then ⟨401, [], s, none⟩
  else if Api.verifyHmac digest env.secret (req.hmacHeader.getD "") req.rawBody then
    match parsed with
    | .error _ => ⟨500, [], s, none⟩
    | .ok data =>
      match Api.extractPhoneNumber data with
      | none => ⟨400, [], s, none⟩
      | some phone =>
        match checkCredit creditData with
        | .error _ => ⟨500, [], s, none⟩
        | .ok remaining =>
          if jsLeZero remaining then ⟨402, [], s, none⟩
          else
            match Api.createNotificationMessage env.storePhone
                (req.topicHeader.getD "") data with
            | .error _ => ⟨500, [], s, none⟩
            | .ok none => ⟨400, [], s, none⟩
            | .ok (some msg) =>
              if MAX_QUOTA ≤ s then ⟨500, [], s, none⟩
              else
                match smsData with
                | .error _ => ⟨500, [(phone, msg)], s, none⟩
                | .ok d =>
                  match getField d "Status" with
                  | some (.str st) =>
                    if st = "Success" then
                      ⟨200, [(phone, msg)], s + 1,
                        some (s + 1, (MAX_QUOTA : Int) - (s + 1))⟩
                    else ⟨500, [(phone, msg)], s, none⟩
                  | _ => ⟨500, [(phone, msg)], s, none⟩
  else ⟨401, [], s, none⟩

end Counter

/-! Spec-side refinement definitions. -/

/-- Path test used by the spec-side extractor. -/
def pathHit (data : JsonVal) (p : List String) : Option JsonVal :=
  match Api.resolvePath data p with
  | some v => if jsTruthy v && isValidPhone (jsValToString v) then some v else none
  | none => none

/-- First hit of a path tester over an ordered path list. -/
def findFirstPath (f : List String → Option JsonVal) :
    List (List String) → Option JsonVal
  | [] => none
  | p :: ps =>
    match f p with
    | some v => some v
    | none => findFirstPath f ps

/-- Modelled from the spec: `extractPhone` tries the fixed ordered list of
five dotted paths and short-circuits on the first that resolves to a
non-empty (truthy) value matching the phone pattern, returning none when
all are exhausted.  A second definition following the spec's words, to be
compared with the source-side `Api.extractPhoneNumber`. -/
def extractPhoneSpec (data : JsonVal) : Option JsonVal :=
  findFirstPath (pathHit data) Api.phonePaths

/-- The five recognized order-lifecycle topics. -/
def fiveTopics : List String :=
  ["orders/create", "orders/cancelled", "orders/updated", "orders/paid",
   "orders/fulfilled"]

/-- The three topics recognized by part_000. -/
def threeTopics : List String :=
  ["orders/create", "orders/cancelled", "orders/updated"]

/-! Concrete fixtures shared by witnesses and counterexamples. -/

/-- A concrete stand-in keyed digest (constant 32-byte output). -/
def dig0 : Digest := fun _ _ => List.replicate 32 0

/-- The signature header matching `dig0` on any body. -/
def hmac0 : String := base64Encode (List.replicate 32 0)

/-- A concrete environment with a configured secret. -/
def env0 : Env := ⟨some "whsec", none, none⟩

/-- The payload of end-to-end scenario A. -/
def payload0 : JsonVal :=
  .obj [("order", .obj [("order_number", .str "1001")]),
        ("customer", .obj [("phone", .str "+966500000000")])]

/-- A concrete valid POST request carrying the scenario-A topic. -/
def req0 : Request :=
  ⟨"POST", some "orders/create", some "shop.example.com", some hmac0, [123]⟩

/-- A successful SMS-gateway response body. -/
def smsOk : JsonVal := .obj [("Status", .str "Success"), ("SMSID", .str "sms-1")]

/-! Base64 roundtrip support. -/

/-- Decoding inverts encoding on each alphabet index. -/
theorem b64Index_b64Char : ∀ n : Nat, n < 64 → b64Index (b64Char n) = some n := by
  decide

/-- Padding characters are skipped by the decoder. -/
theorem b64Index_pad : b64Index '=' = none := by decide

/-- Auxiliary roundtrip: decoding the encoded sextet stream restores the
byte count. -/
theorem decode_encode_aux :
    ∀ xs : List Nat,
      (decodeSextets ((base64EncodeList xs).filterMap b64Index)).length = xs.length
  | [] => rfl
  | [a] => by
    have h1 := b64Index_b64Char ((a % 256) * 65536 / 262144 % 64)
      (Nat.mod_lt _ (by norm_num))
    have h2 := b64Index_b64Char ((a % 256) * 65536 / 4096 % 64)
      (Nat.mod_lt _ (by norm_num))
    simp [base64EncodeList, List.filterMap_cons, h1, h2, b64Index_pad, decodeSextets]
  | [a, b] => by
    have h1 := b64Index_b64Char (((a % 256) * 65536 + (b % 256) * 256) / 262144 % 64)
      (Nat.mod_lt _ (by norm_num))
    have h2 := b64Index_b64Char (((a % 256) * 65536 + (b % 256) * 256) / 4096 % 64)
      (Nat.mod_lt _ (by norm_num))
    have h3 := b64Index_b64Char (((a % 256) * 65536 + (b % 256) * 256) / 64 % 64)
      (Nat.mod_lt _ (by norm_num))
    simp [base64EncodeList, List.filterMap_cons, h1, h2, h3, b64Index_pad, decodeSextets]
  | a :: b :: c :: rest => by
    have ih := decode_encode_aux rest
    have h1 := b64Index_b64Char
      (((a % 256) * 65536 + (b % 256) * 256 + c % 256) / 262144 % 64)
      (Nat.mod_lt _ (by norm_num))
    have h2 := b64Index_b64Char
      (((a % 256) * 65536 + (b % 256) * 256 + c % 256) / 4096 % 64)
      (Nat.mod_lt _ (by norm_num))
    have h3 := b64Index_b64Char
      (((a % 256) * 65536 + (b % 256) * 256 + c % 256) / 64 % 64)
      (Nat.mod_lt _ (by norm_num))
    have h4 := b64Index_b64Char
      (((a % 256) * 65536 + (b % 256) * 256 + c % 256) % 64)
      (Nat.mod_lt _ (by norm_num))
    simp [base64EncodeList, List.filterMap_cons, h1, h2, h3, h4, decodeSextets, ih]

/-- Decoding an encoded byte list restores its length; in particular the
generated digest buffer in verifyHmac always has the digest's byte
length. -/
theorem base64_decode_encode_length (xs : List Nat) :
    (base64Decode (base64Encode xs)).length = xs.length :=
  decode_encode_aux xs

/-- The comparison inside verifyHmac throws whenever the decoded signature
header length differs from the digest length. -/
theorem timingSafeEqual_digest_header (digest : Digest) (s h : String)
    (body : List Nat) (hd : (digest s body).length = 32)
    (hh : (base64Decode h).length ≠ 32) :
    timingSafeEqual (base64Decode (base64Encode (digest s body)))
      (base64Decode h) = Except.error () := by
  have hlen : (base64Decode (base64Encode (digest s body))).length = 32 := by
    rw [base64_decode_encode_length]; exact hd
  unfold timingSafeEqual
  rw [if_neg]
  intro hc
  exact hh (by omega)

/-- C1: the claim (and §4.4 of the spec: the -5 sentinel "must be surfaced
as a typed quota-exhausted condition ... so the orchestrator can choose
HTTP 402 over HTTP 500") is the evident intent, but the cited part_000
checkCredit turns -5 into a thrown generic Error whose own message already
says the quota is exhausted; the catch-all then answers 500.  Evaluated at a
fully valid signed request with credit response -5, the part_000 handler
answers 500 with no dispatch, while the api variant — where -5 passes the
numeric check and reaches the quota comparison — answers 402 as the claim
demands. -/
theorem C1_sentinel_gives_500_in_p000 :
    (P000.handler env0 dig0 req0 (.ok payload0) (.ok (.num (-5))) (.ok smsOk)).status
        = 500
    ∧ (P000.handler env0 dig0 req0 (.ok payload0) (.ok (.num (-5)))
        (.ok smsOk)).dispatchAttempts = []
    ∧ (Api.handler env0 dig0 req0 (.ok payload0) (.ok (.num (-5))) (.ok smsOk)).status
        = 402 :=
  ⟨rfl, rfl, by rfl⟩

/-- C2 counterexample: an input triple on which the part_000 verifyHmac
throws instead of returning false — the header decodes to zero bytes, so
`timingSafeEqual` raises its length error, refuting totality as claimed. -/
theorem C2_p000_verifyHmac_throws_cex :
    P000.verifyHmac (fun _ _ => List.replicate 32 1) (some "secret") "!" [7]
      = Except.error () :=
  rfl

/-- C2 (amended): only the first src/api/index.js verifyHmac is total — its
try/catch returns false on any internal error; the part_000 variant (and
the structurally identical second api variant) propagates the
`timingSafeEqual` exception whenever the base64-decoded signature header's
byte length differs from the 32-byte digest length. -/
theorem C2_verifyHmac_totality (digest : Digest) (s h : String) (body : List Nat)
    (hd : (digest s body).length = 32) (hh : (base64Decode h).length ≠ 32) :
    P000.verifyHmac digest (some s) h body = Except.error ()
    ∧ Api.verifyHmac digest (some s) h body = false := by
  have hts := timingSafeEqual_digest_header digest s h body hd hh
  constructor
  · show timingSafeEqual _ _ = Except.error ()
    exact hts
  · unfold Api.verifyHmac
    by_cases hse : s.isEmpty
    · simp [hse]
    · simp [hse, hts]

/-- C2 witness: the amended statement applied at a concrete digest, secret,
empty header and empty body. -/
theorem C2_verifyHmac_totality_witness :
    P000.verifyHmac dig0 (some "whsec") "" [] = Except.error ()
    ∧ Api.verifyHmac dig0 (some "whsec") "" [] = false :=
  C2_verifyHmac_totality dig0 "whsec" "" [] (by decide) (by decide)

/-- The api extract loop agrees with the spec-side first-match extractor on
every path list. -/
theorem tryPaths_eq_findFirstPath (data : JsonVal) :
    ∀ ps : List (List String),
      Api.tryPaths data ps = findFirstPath (pathHit data) ps
  | [] => rfl
  | p :: ps => by
    have ih := tryPaths_eq_findFirstPath data ps
    cases hr : Api.resolvePath data p with
    | none => simp [Api.tryPaths, findFirstPath, pathHit, hr, ih]
    | some v =>
      by_cases hv : (jsTruthy v && isValidPhone (jsValToString v)) = true
      · simp [Api.tryPaths, findFirstPath, pathHit, hr, hv]
      · simp [Api.tryPaths, findFirstPath, pathHit, hr, hv, ih]

/-- A hit of the part_000 `||` chain is truthy and one of its operands. -/
theorem firstTruthy_mem :
    ∀ (l : List (Option JsonVal)) (v : JsonVal),
      P000.firstTruthy l = some v → jsTruthy v = true ∧ some v ∈ l
  | [], v, h => by simp [P000.firstTruthy] at h
  | none :: vs, v, h => by
    have := firstTruthy_mem vs v (by simpa [P000.firstTruthy] using h)
    exact ⟨this.1, List.mem_cons_of_mem _ this.2⟩
  | some w :: vs, v, h => by
    simp only [P000.firstTruthy] at h
    by_cases hw : jsTruthy w = true
    · rw [if_pos hw] at h
      cases h
      exact ⟨hw, List.mem_cons_self _ _⟩
    · rw [if_neg hw] at h
      have := firstTruthy_mem vs v h
      exact ⟨this.1, List.mem_cons_of_mem _ this.2⟩

/-- A string passing the phone pattern is non-empty. -/
theorem isValidPhone_not_empty (s : String) (hs : isValidPhone s = true) :
    s.isEmpty = false := by
  cases he : s.isEmpty
  · rfl
  · rw [String.isEmpty_iff] at he
    subst he
    exact absurd hs (by decide)

/-- C3 counterexample: a payload with a valid phone at the fifth claimed
path, `shipping_address.phone`; the part_000 extractPhoneNumber cited by
the claim — which only tries the first three paths and validates nothing —
returns none instead of that value. -/
theorem C3_p000_extract_cex :
    P000.extractPhoneNumber
        (.obj [("shipping_address", .obj [("phone", .str "+966500000001")])]) = none
    ∧ Api.resolvePath
        (.obj [("shipping_address", .obj [("phone", .str "+966500000001")])])
        ["shipping_address", "phone"] = some (.str "+966500000001")
    ∧ isValidPhone "+966500000001" = true
    ∧ jsTruthy (.str "+966500000001") = true :=
  ⟨rfl, rfl, rfl, rfl⟩

/-- C3 (amended): the claim holds of the src/api/index.js
extractPhoneNumber — it equals the spec-side five-path first-match
extractor (total by construction, none on exhaustion) and the customer
phone beats the shipping-address phone — but the part_000 variant tries
only the first three paths and applies no pattern validation: any value it
returns is merely a truthy resolution of one of those three paths. -/
theorem C3_extractPhone_order (data : JsonVal) :
    Api.extractPhoneNumber data = extractPhoneSpec data
    ∧ (∀ v, P000.extractPhoneNumber data = some v →
        jsTruthy v = true
        ∧ (Api.resolvePath data ["customer", "phone"] = some v
           ∨ Api.resolvePath data ["order", "customer", "phone"] = some v
           ∨ Api.resolvePath data ["checkout", "billing_address", "phone"] = some v))
    ∧ (∀ s t : String, isValidPhone s = true → isValidPhone t = true →
        Api.extractPhoneNumber
          (.obj [("customer", .obj [("phone", .str s)]),
                 ("shipping_address", .obj [("phone", .str t)])]) = some (.str s)) := by
  refine ⟨tryPaths_eq_findFirstPath data Api.phonePaths, ?_, ?_⟩
  · intro v hv
    have hm := firstTruthy_mem _ v hv
    refine ⟨hm.1, ?_⟩
    have h2 := hm.2
    simp only [List.mem_cons, List.mem_singleton, List.not_mem_nil, or_false] at h2
    rcases h2 with h | h | h
    · exact Or.inl h.symm
    · exact Or.inr (Or.inl h.symm)
    · exact Or.inr (Or.inr h.symm)
  · intro s t hs _
    have hemp := isValidPhone_not_empty s hs
    show Api.tryPaths _ Api.phonePaths = some (.str s)
    have hstep : Api.tryPaths
        (.obj [("customer", .obj [("phone", .str s)]),
               ("shipping_address", .obj [("phone", .str t)])]) Api.phonePaths
        = if jsTruthy (.str s) && isValidPhone (jsValToString (.str s))
          then some (.str s)
          else Api.tryPaths
            (.obj [("customer", .obj [("phone", .str s)]),
                   ("shipping_address", .obj [("phone", .str t)])])
            Api.phonePaths.tail := rfl
    rw [hstep]
    have hcond : (jsTruthy (.str s) && isValidPhone (jsValToString (.str s))) = true := by
      show (!s.isEmpty && isValidPhone s) = true
      rw [hemp, hs]
      rfl
    rw [hcond]
    rfl

/-- C3 witness: the amended statement applied to scenario-A's payload and
to a payload carrying two concrete valid phones. -/
theorem C3_extractPhone_order_witness :
    Api.extractPhoneNumber payload0 = extractPhoneSpec payload0
    ∧ Api.extractPhoneNumber
        (.obj [("customer", .obj [("phone", .str "+966500000000")]),
               ("shipping_address", .obj [("phone", .str "+966511111111")])])
        = some (.str "+966500000000") :=
  ⟨(C3_extractPhone_order payload0).1,
   (C3_extractPhone_order
      (.obj [("customer", .obj [("phone", .str "+966500000000")]),
             ("shipping_address", .obj [("phone", .str "+966511111111")])])).2.2
     "+966500000000" "+966511111111" rfl rfl⟩

/-- The api composer yields an own template string exactly on the five
recognized topics (for non-null payloads, on which it cannot throw). -/
theorem api_compose_some_iff (sp : Option String) (topic : String)
    (data : JsonVal) (hd : data ≠ JsonVal.nullV) :
    (∃ m, Api.createNotificationMessage sp topic data = .ok (some (.str m)))
      ↔ topic ∈ fiveTopics := by
  cases data <;> try exact absurd rfl hd
  all_goals
    (simp only [Api.createNotificationMessage, fiveTopics, List.mem_cons,
      List.not_mem_nil, or_false, Except.ok.injEq];
     split_ifs <;> simp_all)

/-- The part_000 composer yields an own template string exactly on its
three topics. -/
theorem p000_compose_some_iff (sc : Option String) (topic : String)
    (data : JsonVal) (hd : data ≠ JsonVal.nullV) :
    (∃ m, P000.createNotificationMessage sc topic data = .ok (some (.str m)))
      ↔ topic ∈ threeTopics := by
  cases data <;> try exact absurd rfl hd
  all_goals
    (simp only [P000.createNotificationMessage, threeTopics, List.mem_cons,
      List.not_mem_nil, or_false, Except.ok.injEq];
     split_ifs <;> simp_all)

/-- Outside the five own topics, the api composer's lookup resolves through
the prototype chain: an `Object.prototype` property name yields the
inherited member, anything else yields none. -/
theorem api_compose_other (sp : Option String) (topic : String)
    (data : JsonVal) (hd : data ≠ JsonVal.nullV) (h5 : topic ∉ fiveTopics) :
    Api.createNotificationMessage sp topic data
      = .ok (if topic ∈ objectProtoKeys then some (.proto topic) else none) := by
  have h1 : topic ≠ "orders/create" := fun h => h5 (by subst h; decide)
  have h2 : topic ≠ "orders/cancelled" := fun h => h5 (by subst h; decide)
  have h3 : topic ≠ "orders/updated" := fun h => h5 (by subst h; decide)
  have h4 : topic ≠ "orders/paid" := fun h => h5 (by subst h; decide)
  have h6 : topic ≠ "orders/fulfilled" := fun h => h5 (by subst h; decide)
  cases data <;> try exact absurd rfl hd
  all_goals simp [Api.createNotificationMessage, h1, h2, h3, h4, h6]

/-- C4 counterexample: two concrete refutations of the claim as stated —
`orders/paid` is among the five recognized topics yet the part_000
composer cited by the claim returns no message for it, and the topic
`toString` is not among the five yet the api composer's
`templates[eventType] || null` lookup returns the truthy member inherited
from `Object.prototype` rather than none. -/
theorem C4_compose_topics_cex :
    P000.createNotificationMessage none "orders/paid" (.obj []) = .ok none
    ∧ "orders/paid" ∈ fiveTopics
    ∧ Api.createNotificationMessage none "toString" (.obj [])
        = .ok (some (.proto "toString"))
    ∧ "toString" ∉ fiveTopics :=
  ⟨rfl, by decide, rfl, by decide⟩

/-- C4 (amended): the api composer returns a notification template exactly
on the five recognized topics; for every other topic it returns none
unless the topic names an `Object.prototype` property
(constructor, toString, ...), in which case the object-literal lookup
resolves to the truthy inherited member — not a message, but not none
either, so the handler proceeds.  The part_000 composer moreover
recognizes only orders/create, orders/cancelled and orders/updated. -/
theorem C4_compose_topics (sp sc : Option String) (topic : String)
    (data : JsonVal) (hd : data ≠ JsonVal.nullV) :
    ((∃ m, Api.createNotificationMessage sp topic data = .ok (some (.str m)))
      ↔ topic ∈ fiveTopics)
    ∧ (topic ∉ fiveTopics → topic ∉ objectProtoKeys →
        Api.createNotificationMessage sp topic data = .ok none)
    ∧ (topic ∉ fiveTopics → topic ∈ objectProtoKeys →
        Api.createNotificationMessage sp topic data = .ok (some (.proto topic)))
    ∧ ((∃ m, P000.createNotificationMessage sc topic data = .ok (some (.str m)))
      ↔ topic ∈ threeTopics) := by
  refine ⟨api_compose_some_iff sp topic data hd, ?_, ?_,
    p000_compose_some_iff sc topic data hd⟩
  · intro h5 hp
    rw [api_compose_other sp topic data hd h5, if_neg hp]
  · intro h5 hp
    rw [api_compose_other sp topic data hd h5, if_pos hp]

/-- C4 witness: the amended statement applied at the prototype-property
topic `toString` and a concrete payload. -/
theorem C4_compose_topics_witness :
    Api.createNotificationMessage none "toString" (.obj [("order", .obj [])])
      = .ok (some (.proto "toString"))
    ∧ ((∃ m, P000.createNotificationMessage none "toString"
          (.obj [("order", .obj [])]) = .ok (some (.str m)))
        ↔ "toString" ∈ threeTopics) :=
  have h := C4_compose_topics none none "toString" (.obj [("order", .obj [])])
    (fun hc => JsonVal.noConfusion hc)
  ⟨h.2.2.1 (by decide) (by decide), h.2.2.2⟩

/-- The part_000 composer substitutes the `N/A` placeholder for a missing
order number. -/
theorem p000_compose_na (sc : Option String) (data : JsonVal)
    (hd : data ≠ JsonVal.nullV)
    (h : jsGet (getField data "order") "order_number" = none) :
    P000.createNotificationMessage sc "orders/create" data
      = .ok (some (.str "📦 تم تأكيد طلبك #N/A! شكراً لاختيارك متجرنا")) := by
  cases data <;> try exact absurd rfl hd
  all_goals (simp only [P000.createNotificationMessage, h]; rfl)

/-- The second api variant substitutes its Arabic placeholder for a missing
order number. -/
theorem v2_compose_fallback (sp : Option String) (data : JsonVal)
    (hd : data ≠ JsonVal.nullV)
    (h : jsGet (getField data "order") "order_number" = none) :
    V2.createMessage sp "orders/create" data
      = .ok (some (.str "📦 تم تأكيد طلبك #بدون رقم! شكراً لك.")) := by
  cases data <;> try exact absurd rfl hd
  all_goals (simp only [V2.createMessage, h]; rfl)

/-- C7 counterexample: on a recognized topic with the order number missing,
the src/api/index.js composer cited by the claim does not degrade to a
placeholder token — it interpolates the raw JavaScript stringification
`undefined` of the missing field (the message contains no `N/A`). -/
theorem C7_api_undefined_cex :
    Api.createNotificationMessage none "orders/create" (.obj [])
      = .ok (some (.str "📦 تم تأكيد طلبك #undefined! شكراً لثقتك"))
    ∧ ¬ ("N/A".data <:+: "📦 تم تأكيد طلبك #undefined! شكراً لثقتك".data) :=
  ⟨rfl, by decide⟩

/-- C7 (amended): composition never raises on any recognized topic and any
non-null payload in every variant, but only the part_000 composer (order
number → `N/A`) and the second api variant's createMessage (order number →
`بدون رقم`) substitute a designed placeholder; the first api variant
interpolates the JavaScript string `undefined` instead. -/
theorem C7_compose_placeholder (sp sc : Option String) (topic : String)
    (data : JsonVal) (ht : topic ∈ fiveTopics) (hd : data ≠ JsonVal.nullV) :
    (∃ m, Api.createNotificationMessage sp topic data = .ok (some m))
    ∧ (jsGet (getField data "order") "order_number" = none →
        P000.createNotificationMessage sc "orders/create" data
          = .ok (some (.str "📦 تم تأكيد طلبك #N/A! شكراً لاختيارك متجرنا"))
        ∧ V2.createMessage sp "orders/create" data
          = .ok (some (.str "📦 تم تأكيد طلبك #بدون رقم! شكراً لك."))) :=
  have ⟨m, hm⟩ := (api_compose_some_iff sp topic data hd).mpr ht
  ⟨⟨.str m, hm⟩,
   fun h => ⟨p000_compose_na sc data hd h, v2_compose_fallback sp data hd h⟩⟩

/-- C7 witness: the amended statement applied at topic `orders/updated` and
a concrete payload with no order object. -/
theorem C7_compose_placeholder_witness :
    (∃ m, Api.createNotificationMessage none "orders/updated"
        (.obj [("customer", .obj [])]) = .ok (some m))
    ∧ (jsGet (getField (JsonVal.obj [("customer", .obj [])]) "order")
          "order_number" = none →
        P000.createNotificationMessage none "orders/create"
            (.obj [("customer", .obj [])])
          = .ok (some (.str "📦 تم تأكيد طلبك #N/A! شكراً لاختيارك متجرنا"))
        ∧ V2.createMessage none "orders/create" (.obj [("customer", .obj [])])
          = .ok (some (.str "📦 تم تأكيد طلبك #بدون رقم! شكراً لك."))) :=
  C7_compose_placeholder none none "orders/updated" (.obj [("customer", .obj [])])
    (by decide) (fun h => JsonVal.noConfusion h)

/-- C5 counterexample: scenario A on the cited src/index.js
session-counter handler (from sentCount = 0).  Its 200 response body
carries the session counters `quota: {sent: 1, remaining: 9}` — the model's
complete response record, which has no remaining_quota field and no sms
id — and 9 is not the claimed remaining_quota of 4. -/
theorem C5_counter_response_cex :
    Counter.handler env0 dig0 req0 (.ok payload0) (.ok (.num 5)) (.ok smsOk) 0
      = ⟨200,
         [(.str "+966500000000", .str "📦 تم تأكيد طلبك #1001! شكراً لثقتك")],
         1, some (1, 9)⟩
    ∧ (9 : Int) ≠ 4 :=
  ⟨by rfl, by decide⟩

/-- C5 (amended): scenario A — valid signature, topic orders/create, the
scenario payload, credit answer 5, successful gateway response — dispatches
exactly once with phone +966500000000 and a 1001-containing message on all
three cited handlers, and each answers 200; but only the src/api/index.js
handler responds with remaining_quota = 4 and the gateway sms id.  The
part_000 handler responds with remaining_quota = 4 and no sms id (its
response record has no such field), and the src/index.js counter variant
responds with session counters quota.sent = 1, quota.remaining = 9 instead
of remaining_quota, and no sms id. -/
theorem C5_scenario_A :
    Api.handler env0 dig0 req0 (.ok payload0) (.ok (.num 5)) (.ok smsOk)
      = ⟨200,
         [(.str "+966500000000", .str "📦 تم تأكيد طلبك #1001! شكراً لثقتك")],
         true, true, true, some 4, some (some (.str "sms-1"))⟩
    ∧ "1001".data <:+: "📦 تم تأكيد طلبك #1001! شكراً لثقتك".data
    ∧ P000.handler env0 dig0 req0 (.ok payload0) (.ok (.num 5)) (.ok smsOk)
      = ⟨200,
         [(.str "+966500000000",
           .str "📦 تم تأكيد طلبك #1001! شكراً لاختيارك متجرنا")],
         true, true, true, some (some 4)⟩
    ∧ Counter.handler env0 dig0 req0 (.ok payload0) (.ok (.num 5)) (.ok smsOk) 0
      = ⟨200,
         [(.str "+966500000000", .str "📦 تم تأكيد طلبك #1001! شكراً لثقتك")],
         1, some (1, 9)⟩ :=
  ⟨by rfl, by decide, by rfl, by rfl⟩

/-- C6 counterexample: the claim generalizes to every remaining ≤ 0, but at
the sentinel value -5 the part_000 handler answers 500 (its checkCredit
throws), not 402, even on an otherwise fully valid request. -/
theorem C6_p000_minus5_cex :
    (P000.handler ⟨some "whsec", none, some "contact"⟩ dig0
        ⟨"POST", some "orders/updated", some "shop2.example.com", some hmac0, [1, 2]⟩
        (.ok payload0) (.ok (.num (-5))) (.ok smsOk)).status = 500
    ∧ (-5 : Int) ≤ 0 :=
  ⟨rfl, by decide⟩

/-- C6 (amended): with a numeric credit answer c ≤ 0, neither cited handler
ever dispatches; the api handler answers 402 whenever the credit check was
reached, and the part_000 handler answers 402 whenever the credit check was
reached and c is not the -5 sentinel (on -5 its checkCredit throws and the
response is 500 instead). -/
theorem C6_no_dispatch_when_exhausted (env : Env) (digest : Digest)
    (req : Request) (parsed sms : Except Unit JsonVal) (c : Int) (hc : c ≤ 0) :
    ((Api.handler env digest req parsed (.ok (.num c)) sms).dispatchAttempts = []
     ∧ ((Api.handler env digest req parsed (.ok (.num c)) sms).creditCalled = true →
        (Api.handler env digest req parsed (.ok (.num c)) sms).status = 402))
    ∧ ((P000.handler env digest req parsed (.ok (.num c)) sms).dispatchAttempts = []
     ∧ (c ≠ -5 →
        (P000.handler env digest req parsed (.ok (.num c)) sms).creditCalled = true →
        (P000.handler env digest req parsed (.ok (.num c)) sms).status = 402)) := by
  constructor
  · unfold Api.handler
    simp only [Api.checkCredit]
    repeat' split <;> (try simp_all)
  · unfold P000.handler
    simp only [P000.checkCredit]
    by_cases hc5 : c = -5
    · subst hc5
      repeat' split <;> (try simp_all)
    · rw [if_neg hc5]
      repeat' split <;> (try simp_all [jsLeZero, jsToNumber])

/-- C6 witness: the amended statement applied at a concrete valid request
with credit answer 0. -/
theorem C6_no_dispatch_when_exhausted_witness :
    ((Api.handler env0 dig0 req0 (.ok payload0) (.ok (.num 0)) (.ok smsOk)).dispatchAttempts = []
     ∧ ((Api.handler env0 dig0 req0 (.ok payload0) (.ok (.num 0)) (.ok smsOk)).creditCalled = true →
        (Api.handler env0 dig0 req0 (.ok payload0) (.ok (.num 0)) (.ok smsOk)).status = 402))
    ∧ ((P000.handler env0 dig0 req0 (.ok payload0) (.ok (.num 0)) (.ok smsOk)).dispatchAttempts = []
     ∧ ((0 : Int) ≠ -5 →
        (P000.handler env0 dig0 req0 (.ok payload0) (.ok (.num 0)) (.ok smsOk)).creditCalled = true →
        (P000.handler env0 dig0 req0 (.ok payload0) (.ok (.num 0)) (.ok smsOk)).status = 402)) :=
  C6_no_dispatch_when_exhausted env0 dig0 req0 (.ok payload0) (.ok smsOk) 0
    (by decide)

/-- C8 counterexample: a credit response that is a plain string, neither a
number nor the -5 sentinel: the part_000 checkCredit cited by the claim
returns it unchanged, the quota test is false under JavaScript coercion
(NaN), and the pipeline proceeds through composition to a dispatch,
answering 200 with a null remaining_quota. -/
theorem C8_p000_string_credit_cex :
    P000.checkCredit (.ok (.str "OK")) = .ok (.str "OK")
    ∧ (P000.handler env0 dig0 req0 (.ok payload0) (.ok (.str "OK"))
        (.ok smsOk)).status = 200
    ∧ (P000.handler env0 dig0 req0 (.ok payload0) (.ok (.str "OK"))
        (.ok smsOk)).dispatchAttempts
      = [(.str "+966500000000",
          .str "📦 تم تأكيد طلبك #1001! شكراً لاختيارك متجرنا")]
    ∧ (P000.handler env0 dig0 req0 (.ok payload0) (.ok (.str "OK"))
        (.ok smsOk)).remaining_quota = some none :=
  ⟨rfl, rfl, rfl, rfl⟩

/-- C8 (amended): the src/api/index.js checkCredit does reject every
non-numeric credit response as a thrown failure, and its pipeline then
never dispatches (answering 500 whenever the credit stage was reached);
but the part_000 checkCredit intercepts only the -5 sentinel and returns
any other response value unchanged into the pipeline. -/
theorem C8_checkCredit_validation (v : JsonVal)
    (hv : ∀ n : Int, v ≠ JsonVal.num n) :
    Api.checkCredit (.ok v) = .error ()
    ∧ (∀ (env : Env) (digest : Digest) (req : Request)
          (parsed sms : Except Unit JsonVal),
        (Api.handler env digest req parsed (.ok v) sms).dispatchAttempts = []
        ∧ ((Api.handler env digest req parsed (.ok v) sms).creditCalled = true →
           (Api.handler env digest req parsed (.ok v) sms).status = 500))
    ∧ (v ≠ JsonVal.num (-5) → P000.checkCredit (.ok v) = .ok v) := by
  have hcc : Api.checkCredit (.ok v) = .error () := by
    cases v <;> first | exact absurd rfl (hv _) | rfl
  refine ⟨hcc, ?_, ?_⟩
  · intro env digest req parsed sms
    unfold Api.handler
    rw [hcc]
    repeat' split <;> (try simp_all)
  · intro h5
    cases v <;> first | exact absurd rfl (hv _) | rfl

/-- C8 witness: the amended statement applied at the string credit
response `OK` and a concrete request. -/
theorem C8_checkCredit_validation_witness :
    Api.checkCredit (.ok (.str "OK")) = .error ()
    ∧ ((Api.handler env0 dig0 req0 (.ok payload0) (.ok (.str "OK"))
          (.ok smsOk)).dispatchAttempts = []
       ∧ ((Api.handler env0 dig0 req0 (.ok payload0) (.ok (.str "OK"))
            (.ok smsOk)).creditCalled = true →
          (Api.handler env0 dig0 req0 (.ok payload0) (.ok (.str "OK"))
            (.ok smsOk)).status = 500))
    ∧ (JsonVal.str "OK" ≠ JsonVal.num (-5) →
        P000.checkCredit (.ok (.str "OK")) = .ok (.str "OK")) :=
  have h := C8_checkCredit_validation (.str "OK") (fun _ hn => JsonVal.noConfusion hn)
  ⟨h.1, h.2.1 env0 dig0 req0 (.ok payload0) (.ok smsOk), h.2.2⟩

/-- C9 counterexample: a GET request missing all three required headers is
rejected 405 by the method check, not 401 as the claim states — though
still with no body read, no parse, no credit call and no dispatch. -/
theorem C9_get_missing_headers_cex :
    Api.handler env0 dig0 ⟨"GET", none, none, none, []⟩
        (.error ()) (.error ()) (.error ())
      = ⟨405, [], false, false, false, none, none⟩ :=
  rfl

/-- C9 (amended): every POST request missing any of the three required
headers is answered 401, and the full result record shows no body read, no
JSON parse, no credit-service call and no dispatch, in both cited handler
variants (a non-POST request exits even earlier, with 405). -/
theorem C9_missing_headers_401 (env : Env) (digest : Digest) (req : Request)
    (parsed credit sms : Except Unit JsonVal) (hm : req.method = "POST")
    (hh : missingHeaders req = true) :
    Api.handler env digest req parsed credit sms
      = ⟨401, [], false, false, false, none, none⟩
    ∧ P000.handler env digest req parsed credit sms
      = ⟨401, [], false, false, false, none⟩ := by
  constructor
  · unfold Api.handler
    rw [if_neg (fun hcon => hcon hm), if_pos hh]
  · unfold P000.handler
    rw [if_neg (fun hcon => hcon hm), if_pos hh]

/-- C9 witness: the amended statement applied at a concrete POST request
with the topic header missing. -/
theorem C9_missing_headers_401_witness :
    Api.handler env0 dig0 ⟨"POST", none, some "shop.example.com", some "sig", [7]⟩
        (.error ()) (.error ()) (.error ())
      = ⟨401, [], false, false, false, none, none⟩
    ∧ P000.handler env0 dig0 ⟨"POST", none, some "shop.example.com", some "sig", [7]⟩
        (.error ()) (.error ()) (.error ())
      = ⟨401, [], false, false, false, none⟩ :=
  C9_missing_headers_401 env0 dig0 _ _ _ _ rfl rfl

/-- A request that reaches the sendSMS stage of the counter handler: POST,
all headers present, signature accepted, payload parsed with a phone
found, a positive numeric credit answer, and a composed message. -/
def ReachesSend (env : Env) (digest : Digest) (req : Request)
    (parsed credit : Except Unit JsonVal) : Prop :=
  req.method = "POST" ∧ missingHeaders req = false
  ∧ Api.verifyHmac digest env.secret (req.hmacHeader.getD "") req.rawBody = true
  ∧ ∃ (data phone : JsonVal) (msg : String) (c : Int),
      parsed = Except.ok data
      ∧ Api.extractPhoneNumber data = some phone
      ∧ credit = Except.ok (JsonVal.num c)
      ∧ 0 < c
      ∧ Api.createNotificationMessage env.storePhone (req.topicHeader.getD "") data
          = Except.ok (some (.str msg))

/-- Every run of the counter handler either exits without dispatching and
leaves the counter unchanged, or dispatches below the ceiling — failing
(500, counter unchanged) or succeeding (200, counter incremented). -/
theorem counter_handler_cases (env : Env) (digest : Digest) (req : Request)
    (parsed credit sms : Except Unit JsonVal) (s : Nat) :
    (∃ st, Counter.handler env digest req parsed credit sms s = ⟨st, [], s, none⟩
        ∧ st ≠ 200)
    ∨ (∃ pm, Counter.handler env digest req parsed credit sms s
          = ⟨500, [pm], s, none⟩ ∧ s < Counter.MAX_QUOTA)
    ∨ (∃ pm q, Counter.handler env digest req parsed credit sms s
          = ⟨200, [pm], s + 1, q⟩ ∧ s < Counter.MAX_QUOTA) := by
  unfold Counter.handler
  repeat' split
  all_goals try (left; exact ⟨_, rfl, by omega⟩)
  all_goals try (right; left; exact ⟨_, rfl, by omega⟩)
  all_goals (right; right; exact ⟨_, _, rfl, by omega⟩)

/-- At or above the ceiling, an otherwise fully valid request makes the
sendSMS quota guard throw before the gateway call: 500, no dispatch,
counter unchanged — regardless of the credit service's positive answer. -/
theorem counter_at_ceiling (env : Env) (digest : Digest) (req : Request)
    (parsed credit sms : Except Unit JsonVal) (s : Nat)
    (hs : Counter.MAX_QUOTA ≤ s)
    (hr : ReachesSend env digest req parsed credit) :
    Counter.handler env digest req parsed credit sms s = ⟨500, [], s, none⟩ := by
  obtain ⟨hm, hh, hv, data, phone, msg, c, hp, hx, hcred, hcpos, hmsg⟩ := hr
  subst hp
  subst hcred
  have hne5 : ¬(c = -5) := by omega
  have hnle : ¬(c ≤ 0) := by omega
  unfold Counter.handler
  rw [if_neg (fun hcon => hcon hm), if_neg (by simp [hh]), if_pos hv]
  simp [hx, Counter.checkCredit, hmsg, hne5, hnle, jsLeZero, jsToNumber, hs]

/-- C10: the session-counter invariant of src/index.js — starting from any
sentCount ≤ MAX_QUOTA the post-request counter stays ≤ MAX_QUOTA; the
counter changes only by an increment that accompanies a successful (200)
dispatch below the ceiling; and once sentCount has reached MAX_QUOTA no
request dispatches or answers 200, with every otherwise-valid request
(positive credit answer included) ending in 500 via the sendSMS guard. -/
theorem C10_counter_quota_invariant (env : Env) (digest : Digest)
    (req : Request) (parsed credit sms : Except Unit JsonVal) (s : Nat) :
    (s ≤ Counter.MAX_QUOTA →
      (Counter.handler env digest req parsed credit sms s).sentAfter
        ≤ Counter.MAX_QUOTA)
    ∧ ((Counter.handler env digest req parsed credit sms s).sentAfter = s
       ∨ ((Counter.handler env digest req parsed credit sms s).sentAfter = s + 1
          ∧ (Counter.handler env digest req parsed credit sms s).status = 200
          ∧ (Counter.handler env digest req parsed credit sms s).dispatchAttempts ≠ []
          ∧ s < Counter.MAX_QUOTA))
    ∧ (Counter.MAX_QUOTA ≤ s →
        (Counter.handler env digest req parsed credit sms s).dispatchAttempts = []
        ∧ (Counter.handler env digest req parsed credit sms s).sentAfter = s
        ∧ (Counter.handler env digest req parsed credit sms s).status ≠ 200
        ∧ (ReachesSend env digest req parsed credit →
            (Counter.handler env digest req parsed credit sms s).status = 500)) := by
  rcases counter_handler_cases env digest req parsed credit sms s with
    ⟨st, heq, hst⟩ | ⟨pm, heq, hlt⟩ | ⟨pm, q, heq, hlt⟩
  · rw [heq]
    refine ⟨fun h => h, Or.inl rfl, fun h => ⟨rfl, rfl, hst, fun hr => ?_⟩⟩
    have hc := counter_at_ceiling env digest req parsed credit sms s h hr
    exact congrArg Counter.Result.status (heq.symm.trans hc)
  · rw [heq]
    exact ⟨fun h => h, Or.inl rfl, fun h => absurd h (by omega)⟩
  · rw [heq]
    exact ⟨fun h => by show s + 1 ≤ Counter.MAX_QUOTA; omega,
      Or.inr ⟨rfl, rfl, by simp, hlt⟩,
      fun h => absurd h (by omega)⟩

/-- C10 witness: the invariant applied at the ceiling (sentCount = 10) with
an otherwise fully valid scenario-A request and credit answer 5, and below
the ceiling (sentCount = 0). -/
theorem C10_counter_quota_invariant_witness :
    (Counter.handler env0 dig0 req0 (.ok payload0) (.ok (.num 5)) (.ok smsOk)
        10).status = 500
    ∧ (Counter.handler env0 dig0 req0 (.ok payload0) (.ok (.num 5)) (.ok smsOk)
        10).dispatchAttempts = []
    ∧ (Counter.handler env0 dig0 req0 (.ok payload0) (.ok (.num 5)) (.ok smsOk)
        10).sentAfter = 10
    ∧ (Counter.handler env0 dig0 req0 (.ok payload0) (.ok (.num 5)) (.ok smsOk)
        0).sentAfter ≤ Counter.MAX_QUOTA := by
  have h10 := C10_counter_quota_invariant env0 dig0 req0 (.ok payload0)
    (.ok (.num 5)) (.ok smsOk) 10
  have h0 := C10_counter_quota_invariant env0 dig0 req0 (.ok payload0)
    (.ok (.num 5)) (.ok smsOk) 0
  have hceil := h10.2.2 (by decide)
  refine ⟨hceil.2.2.2 ?_, hceil.1, hceil.2.1, h0.1 (by decide)⟩
  exact ⟨rfl, rfl, by rfl, payload0, .str "+966500000000",
    "📦 تم تأكيد طلبك #1001! شكراً لثقتك", 5, rfl, by rfl, rfl,
    by norm_num, by rfl⟩

end Pshopi
